import Mathlib

/-!
Shallow embedding of `src/data_structures.hpp` from Barnes-2013-FlatSurfaces:
the generic grid container `array2d<T>` (row-major `std::vector<std::vector<T>>`
storage plus georeferencing metadata) and the `grid_cell` coordinate pair.

Modelling conventions:
* `std::vector<std::vector<T>>` becomes `List (List T)`; `data[y][x]` becomes a
  total `Option`-returning lookup (`none` exactly where the source access is
  out of range, i.e. undefined behaviour).
* the `double` metadata fields (`cellsize`, `xllcorner`, `yllcorner`) are
  modelled as `Int`: the source only ever assigns the integer literal `-1` to
  them or copies them verbatim, so no floating-point behaviour is observable.
* `long` dimensions and `int` coordinates become `Nat` (sizes) and `Int`
  (coordinates, which may be negative in the source's predicates).
* the `unsigned long long` arithmetic in `resize`'s diagnostic message is
  modelled with an explicit `% 2 ^ 64` at every multiplication.
-/

/-- Conversion of a C++ `int` value into an element type `T`: models the
implicit conversions performed by `no_data=-1` in the default constructor and
by the value-initialization `std::vector<T>(width)` in `resize`. -/
class CppScalar (T : Type) where
  ofInt : Int → T

instance : CppScalar Int := ⟨fun n => n⟩

instance : CppScalar Bool := ⟨fun n => decide (n ≠ 0)⟩

/-- Unsigned 32-bit element values modelled as naturals below `2 ^ 32`. -/
instance : CppScalar Nat := ⟨fun n => (n % (2 : Int) ^ 32).toNat⟩

/-- The `array2d<T>` class: `data` is the private
`std::vector<std::vector<T>>` storage and the five public metadata fields
follow it. -/
structure array2d (T : Type) where
  data : List (List T)
  cellsize : Int
  xllcorner : Int
  yllcorner : Int
  data_cells : Int
  no_data : T

namespace array2d

variable {T U : Type}

/-- Total embedding of `width()`, which evaluates `data[0].size()`: on a grid
with no rows the row-0 access is out of range and yields `none`. -/
def width? (g : array2d T) : Option Nat :=
  g.data.head?.map List.length

/-- Numeric stand-in for `width()`: the defined value when row 0 exists, `0`
when the source expression is undefined (used by the bounds predicates, whose
results the source only observes on nonempty grids). -/
def widthD (g : array2d T) : Nat :=
  g.width?.getD 0

/-- Embedding of `height()`: `data.size()`. -/
def height (g : array2d T) : Nat :=
  g.data.length

/-- Embedding of `in_grid(x,y)`: `x>=0 && y>=0 && x<width() && y<height()`. -/
def in_grid (g : array2d T) (x y : Int) : Bool :=
  0 ≤ x && 0 ≤ y && x < (g.widthD : Int) && y < (g.height : Int)

/-- Embedding of `interior_grid(x,y)`:
`x>=1 && y>=1 && x<width()-1 && y<height()-1`. -/
def interior_grid (g : array2d T) (x y : Int) : Bool :=
  1 ≤ x && 1 ≤ y && x < (g.widthD : Int) - 1 && y < (g.height : Int) - 1

/-- Embedding of `edge_grid(x,y)`:
`x==0 || y==0 || x==width()-1 || y==height()-1`. -/
def edge_grid (g : array2d T) (x y : Int) : Bool :=
  x == 0 || y == 0 || x == (g.widthD : Int) - 1 || y == (g.height : Int) - 1

/-- Total embedding of `operator()(x,y)`, i.e. `data[y][x]`: an out-of-range
access is undefined behaviour in the source and yields `none` here. -/
def get? (g : array2d T) (x y : Int) : Option T :=
  if 0 ≤ x ∧ 0 ≤ y then (g.data.get? y.toNat).bind (fun row => row.get? x.toNat)
  else none

/-- Embedding of the default constructor `array2d()`: storage is empty and
every metadata field is assigned `-1` (converted to `T` for `no_data`). -/
def mkDefault (T : Type) [CppScalar T] : array2d T :=
  { data := []
    cellsize := -1
    xllcorner := -1
    yllcorner := -1
    data_cells := -1
    no_data := CppScalar.ofInt (-1) }

/-- Embedding of `resize(width,height)`'s storage effect:
`data.resize(height, std::vector<T>(width))`.  `std::vector::resize` keeps the
first `height` rows when shrinking and appends value-initialized rows of
length `width` when growing; rows that survive are not reshaped. -/
def resize [CppScalar T] (g : array2d T) (w h : Nat) : array2d T :=
  { g with data :=
      if h ≤ g.data.length then g.data.take h
      else g.data ++
        List.replicate (h - g.data.length) (List.replicate w (CppScalar.ofInt 0)) }

/-- Megabyte figure printed by `resize`'s diagnostic message: the source
computes `(unsigned long long)width * (unsigned long long)height *
(unsigned long long)sizeof(T) / 1024 / 1024`, i.e. each multiplication is
performed modulo `2 ^ 64` before the two divisions. -/
def resizeMsgMB (sizeofT w h : Nat) : Nat :=
  w % 2 ^ 64 * (h % 2 ^ 64) % 2 ^ 64 * (sizeofT % 2 ^ 64) % 2 ^ 64 / 1024 / 1024

/-- Exact figure `floor(width * height * sizeof(element) / 1024 / 1024)`.
Modelled from the spec: the spec describes the diagnostic figure as this exact
(non-overflowing) quantity; compared against `resizeMsgMB` from the source. -/
def exactMsgMB (sizeofT w h : Nat) : Nat :=
  w * h * sizeofT / 1024 / 1024

/-- Embedding of `copyprops(copyfrom)`: copies the five metadata fields and
then calls `resize(copyfrom.width(), copyfrom.height())`.  `cvt` is the
implicit C++ conversion from `U` to `T` applied by `no_data=copyfrom.no_data`.
The `copyfrom.width()` read is undefined behaviour when the source has no
rows (row-0 access out of range), and its value also feeds the eagerly
constructed row prototype inside `resize`; the whole call therefore yields
`none` exactly when the source's `width()` is undefined. -/
def copyprops [CppScalar T] (g : array2d T) (cvt : U → T) (src : array2d U) :
    Option (array2d T) :=
  src.width?.map fun w =>
    ({ g with
        cellsize := src.cellsize
        xllcorner := src.xllcorner
        yllcorner := src.yllcorner
        data_cells := src.data_cells
        no_data := cvt src.no_data } : array2d T).resize w src.height

/-- Embedding of the cross-type copy constructor `array2d(const array2d<U>&)`:
`*this=array2d()` followed by `copyprops(copyfrom)` (so `none` again marks the
undefined `copyfrom.width()` read on a row-less source). -/
def ofCopy [CppScalar T] (cvt : U → T) (src : array2d U) : Option (array2d T) :=
  (mkDefault T).copyprops cvt src

/-- Embedding of `init(val)`: writes `val` to `(x,y)` for every `x<width()`
and `y<height()`.  Per row this overwrites the entries at indices below
`width()`; a write past the end of a shorter row is undefined behaviour in the
source and is dropped here. -/
def init (g : array2d T) (val : T) : array2d T :=
  { g with data := g.data.map (fun row =>
      List.replicate (min g.widthD row.length) val ++ row.drop g.widthD) }

/-- Embedding of `clear()`: `data.clear()` empties the storage and touches
nothing else. -/
def clear (g : array2d T) : array2d T :=
  { g with data := [] }

/-- Embedding of `operator==`'s cell loop: the coordinates are visited in the
source's loop order and the first mismatching pair returns `false` at once,
so a later out-of-range read is never reached; a `data[y][x]` read that is out
of range (undefined behaviour in the source) makes the whole comparison
undefined (`none`). -/
def beqCells [DecidableEq T] (g other : array2d T) :
    List (Int × Int) → Option Bool
  | [] => some true
  | p :: rest =>
    match g.get? p.1 p.2, other.get? p.1 p.2 with
    | some a, some b => if a ≠ b then some false else beqCells g other rest
    | _, _ => none

/-- Embedding of `operator==`: both `width()` calls happen unconditionally,
so the comparison is undefined (`none`) whenever either operand has no rows;
with both defined, a `width()` or `height()` mismatch returns false before
any cell is read, and otherwise the cells at `x<width()`, `y<height()` are
compared in loop order (outer `x`, inner `y`) with an early exit on the first
mismatch. -/
def beq [DecidableEq T] (g other : array2d T) : Option Bool :=
  g.width?.bind fun w => other.width?.bind fun w' =>
    if w ≠ w' ∨ g.height ≠ other.height then some false
    else beqCells g other ((List.range w).flatMap fun x =>
      (List.range g.height).map fun y => (Int.ofNat x, Int.ofNat y))

/-- The spec's rectangularity invariant: all rows have identical length
(no jagged storage), that length being `width()` = row 0's length. -/
def rect (g : array2d T) : Prop :=
  ∀ row ∈ g.data, row.length = g.widthD

/-- Replaces only the five metadata fields, leaving the storage untouched;
used to state that metadata plays no role in `operator==`. -/
def withMeta (g : array2d T) (cs xl yl dc : Int) (nd : T) : array2d T :=
  { g with
    cellsize := cs
    xllcorner := xl
    yllcorner := yl
    data_cells := dc
    no_data := nd }

end array2d

/-- Element types at which the source instantiates `array2d`, either through
an explicit specialization of `estimated_output_size` or a typedef. -/
inductive CElem
  | cfloat
  | cchar
  | cschar
  | cbool
  | cuint
  | cdouble
  | cint
deriving DecidableEq

/-- Embedding of the four explicit specializations of
`estimated_output_size()` (for `float`, `char`, `bool`, `unsigned int`); an
element type with no specialization leaves the member declared but undefined —
a link-time error in the source — giving `none`. -/
def estimated_output_size : CElem → Nat → Nat → Option Nat
  | CElem.cfloat, w, h => some (9 * w * h)
  | CElem.cchar, w, h => some (4 * w * h)
  | CElem.cbool, w, h => some (2 * w * h)
  | CElem.cuint, w, h => some (9 * w * h)
  | _, _, _ => none

/-- Element type of the `char_2d` typedef: `array2d<signed char>`, which is a
distinct type from plain `char` for template-specialization purposes. -/
def char_2d_elem : CElem := CElem.cschar

/-- Element type of the `float_2d` typedef: `array2d<float>`. -/
def float_2d_elem : CElem := CElem.cfloat

/-- Element type of the `bool_2d` typedef: `array2d<bool>`. -/
def bool_2d_elem : CElem := CElem.cbool

/-- Element type of the `uint_2d` typedef: `array2d<unsigned int>`. -/
def uint_2d_elem : CElem := CElem.cuint

/-- Element type of the `double_2d` typedef: `array2d<double>`. -/
def double_2d_elem : CElem := CElem.cdouble

/-- Element type of the `int_2d` typedef: `array2d<int>`. -/
def int_2d_elem : CElem := CElem.cint

/-- Sizes in bytes of the element types on the x86-64 ABI the source targets
(`sizeof(T)` in `resize`'s diagnostic message). -/
def sizeofC : CElem → Nat
  | CElem.cfloat => 4
  | CElem.cchar => 1
  | CElem.cschar => 1
  | CElem.cbool => 1
  | CElem.cuint => 4
  | CElem.cdouble => 8
  | CElem.cint => 4

/-- The `grid_cell` class: an (x, y) coordinate pair with `int` members. -/
structure grid_cell where
  x : Int
  y : Int

/-! Concrete grids used by counterexamples and witnesses. -/

/-- Concrete 3×2 grid of `Int` cells obtained by resizing a fresh grid. -/
def gA : array2d Int := (array2d.mkDefault Int).resize 3 2

/-- Concrete 5×2 grid of `Int` cells obtained by resizing a fresh grid. -/
def gB : array2d Int := (array2d.mkDefault Int).resize 5 2

/-- Concrete 5×5 grid of `Int` cells obtained by resizing a fresh grid. -/
def g5 : array2d Int := (array2d.mkDefault Int).resize 5 5

/-- All 25 in-grid coordinates of a 5×5 grid, as integer pairs. -/
def coords5 : List (Int × Int) :=
  (List.range 5).flatMap fun x => (List.range 5).map fun y => ((x : Int), (y : Int))

namespace array2d

/-- Helper: `resize` always makes `height()` equal to the requested height. -/
theorem height_resize {T : Type} [CppScalar T] (g : array2d T) (w h : Nat) :
    (g.resize w h).height = h := by
  unfold resize height
  split
  · simpa using by omega
  · simp; omega

/-- Helper: with a positive requested height, `resize` leaves `width()` at the
old row-0 length when the grid had rows, and sets it to the requested width
when it had none. -/
theorem width?_resize_pos {T : Type} [CppScalar T] (g : array2d T) (w h : Nat)
    (hh : 0 < h) :
    (g.resize w h).width? = if g.height = 0 then some w else g.width? := by
  unfold resize width? height
  cases hd : g.data with
  | nil => simp [hd, Nat.not_le.mpr hh, List.replicate, Nat.sub_zero]
           cases h with
           | zero => omega
           | succ n => simp [List.replicate]
  | cons r rs =>
    simp only [hd, List.length_cons]
    split
    · cases h with
      | zero => omega
      | succ n => simp [List.take]
    · simp

/-- Helper: `resize` with requested height `0` empties the storage. -/
theorem width?_resize_zero {T : Type} [CppScalar T] (g : array2d T) (w : Nat) :
    (g.resize w 0).width? = none := by
  unfold resize width?
  simp

end array2d

/-- C6 counterexample: the claim's "4 bytes/cell for the canonical `char_2d`
instantiation" fails: `char_2d` is `array2d<signed char>`, and
`estimated_output_size` has no specialization for `signed char` (only for
plain `char`), so the member is undefined for `char_2d`. -/
theorem char_2d_has_no_output_size :
    ¬ estimated_output_size char_2d_elem 1 1 = some (4 * 1 * 1) := by decide

/-- C6 (amended): `estimated_output_size` is `9·w·h` for the `float` and
`unsigned int` element types, `4·w·h` for plain `char`, `2·w·h` for `bool`,
and is undefined (rejected at link time) for `signed char` (the `char_2d`
element type), `double` and `int`; for a 100×100 `float` grid it is 90000. -/
theorem estimated_output_size_spec :
    (∀ w h : Nat, estimated_output_size float_2d_elem w h = some (9 * w * h)) ∧
    (∀ w h : Nat, estimated_output_size uint_2d_elem w h = some (9 * w * h)) ∧
    (∀ w h : Nat, estimated_output_size CElem.cchar w h = some (4 * w * h)) ∧
    (∀ w h : Nat, estimated_output_size bool_2d_elem w h = some (2 * w * h)) ∧
    (∀ w h : Nat, estimated_output_size char_2d_elem w h = none) ∧
    (∀ w h : Nat, estimated_output_size double_2d_elem w h = none) ∧
    (∀ w h : Nat, estimated_output_size int_2d_elem w h = none) ∧
    estimated_output_size float_2d_elem 100 100 = some 90000 := by
  refine ⟨fun w h => rfl, fun w h => rfl, fun w h => rfl, fun w h => rfl,
    fun w h => rfl, fun w h => rfl, fun w h => rfl, rfl⟩

/-- C7 counterexample: a freshly default-constructed grid does not satisfy
`width() == 0`: its storage has no rows, so `width()` reads `data[0].size()`
out of range and the total embedding returns `none`, not `some 0`. -/
theorem mkDefault_width_not_zero :
    ¬ (array2d.mkDefault Int).width? = some 0 := by decide

/-- C7 (amended): a freshly default-constructed grid has `height() == 0`, an
undefined `width()` (`none` in the total embedding), the numeric metadata
fields `cellsize`, `xllcorner`, `yllcorner`, `data_cells` equal to `-1`, and
`no_data` equal to `-1` converted to the element type. -/
theorem mkDefault_spec (T : Type) [CppScalar T] :
    (array2d.mkDefault T).height = 0 ∧
    (array2d.mkDefault T).width? = none ∧
    (array2d.mkDefault T).cellsize = -1 ∧
    (array2d.mkDefault T).xllcorner = -1 ∧
    (array2d.mkDefault T).yllcorner = -1 ∧
    (array2d.mkDefault T).data_cells = -1 ∧
    (array2d.mkDefault T).no_data = CppScalar.ofInt (-1) :=
  ⟨rfl, rfl, rfl, rfl, rfl, rfl, rfl⟩

/-- C8 counterexample: after `clear()` the grid does not satisfy
`width() == 0`: the storage has no rows, so `width()` reads `data[0].size()`
out of range and the total embedding returns `none`, not `some 0`. -/
theorem clear_width_not_zero : ¬ gA.clear.width? = some 0 := by decide

/-- C8 (amended): after `clear()` the grid has `height() == 0` and an
undefined `width()` (`none` in the total embedding), while all five metadata
fields retain the exact values they had before the call. -/
theorem clear_spec {T : Type} (g : array2d T) :
    g.clear.height = 0 ∧
    g.clear.width? = none ∧
    g.clear.cellsize = g.cellsize ∧
    g.clear.xllcorner = g.xllcorner ∧
    g.clear.yllcorner = g.yllcorner ∧
    g.clear.data_cells = g.data_cells ∧
    g.clear.no_data = g.no_data :=
  ⟨rfl, rfl, rfl, rfl, rfl, rfl, rfl⟩

namespace array2d

/-- Helper: on a grid with rows, `width()` is defined and equals `widthD`. -/
theorem width?_eq_some_widthD {T : Type} {g : array2d T} (h : 0 < g.height) :
    g.width? = some g.widthD := by
  cases hd : g.data with
  | nil => rw [height, hd] at h; simp at h
  | cons r rs => simp [width?, widthD, hd]

/-- Helper: on a grid with no rows, `width()` is undefined. -/
theorem width?_eq_none {T : Type} {g : array2d T} (h : g.height = 0) :
    g.width? = none := by
  cases hd : g.data with
  | nil => simp [width?, hd]
  | cons r rs => rw [height, hd] at h; simp at h

/-- Helper: on a source with rows (so that its `width()` read is defined),
`copyprops` succeeds and the result carries the copied metadata, the source's
height, and — when the destination had no rows — the source's width. -/
theorem copyprops_some {T U : Type} [CppScalar T] (cvt : U → T)
    (g : array2d T) (src : array2d U) (hsrc : 0 < src.height) :
    ∃ D, g.copyprops cvt src = some D ∧
      D.cellsize = src.cellsize ∧ D.xllcorner = src.xllcorner ∧
      D.yllcorner = src.yllcorner ∧ D.data_cells = src.data_cells ∧
      D.no_data = cvt src.no_data ∧ D.height = src.height ∧
      (g.height = 0 → D.width? = src.width?) := by
  unfold copyprops
  rw [width?_eq_some_widthD hsrc]
  simp only [Option.map_some']
  refine ⟨_, rfl, rfl, rfl, rfl, rfl, rfl, height_resize _ _ _, fun hg => ?_⟩
  rw [width?_resize_pos _ _ _ hsrc]
  split
  · rfl
  · next hne => exact absurd hg hne

end array2d

/-- C1 counterexample: `resize(5, 2)` on a grid that previously had 3×2
storage leaves `width()` at 3: `std::vector::resize` does not reshape the
surviving rows, so the requested width is not attained. -/
theorem resize_keeps_old_row_width : ¬ (gA.resize 5 2).width? = some 5 := by
  decide

/-- C1 (amended): after `resize(w, h)`, `height() == h` always holds; for
`h > 0`, `width() == w` holds exactly when the grid previously had no rows
(e.g. freshly constructed), and otherwise `width()` keeps the previous row-0
length; for `h = 0` the storage becomes empty and `width()` is undefined. -/
theorem resize_dims {T : Type} [CppScalar T] (g : array2d T) (w h : Nat) :
    (g.resize w h).height = h ∧
    (0 < h →
      (g.resize w h).width? = if g.height = 0 then some w else g.width?) ∧
    (g.resize w 0).width? = none :=
  ⟨array2d.height_resize g w h,
   fun hh => array2d.width?_resize_pos g w h hh,
   array2d.width?_resize_zero g w⟩

/-- C1 witness: resizing a fresh grid to 3×2 yields `height() = 2` and
`width() = 3`. -/
theorem resize_dims_witness :
    (0 : Nat) < 2 ∧ ((array2d.mkDefault Int).resize 3 2).height = 2 ∧
      ((array2d.mkDefault Int).resize 3 2).width? = some 3 := by
  have h := resize_dims (array2d.mkDefault Int) 3 2
  exact ⟨by decide, h.1, by simpa using h.2.1 (by decide)⟩

/-- C2 counterexample: `copyprops` from a 5×2 source into a destination that
already has 3×2 storage succeeds (the source's `width()` read is defined)
but leaves the destination's `width()` at 3, not the source's 5: the
`resize` it performs does not reshape surviving rows. -/
theorem copyprops_width_not_copied :
    ¬ (gA.copyprops id gB).bind array2d.width? = gB.width? := by decide

/-- C2 (amended): when the source grid has no rows, `copyprops` evaluates the
undefined `copyfrom.width()` read and the call itself is undefined; when the
source has rows, `copyprops` copies `cellsize`, `xllcorner`, `yllcorner`,
`data_cells` and `no_data` (the latter through the implicit element
conversion) and makes the destination's `height()` equal the source's, while
the destination's `width()` becomes the source's only when the destination
previously had no rows.  The cross-type copy constructor starts from a fresh
grid and so establishes the full postcondition whenever the source has
rows. -/
theorem copyprops_spec {T U : Type} [CppScalar T] (cvt : U → T)
    (g : array2d T) (src : array2d U) :
    (src.height = 0 → g.copyprops cvt src = none) ∧
    (0 < src.height →
      ∃ D, g.copyprops cvt src = some D ∧
        D.cellsize = src.cellsize ∧ D.xllcorner = src.xllcorner ∧
        D.yllcorner = src.yllcorner ∧ D.data_cells = src.data_cells ∧
        D.no_data = cvt src.no_data ∧ D.height = src.height ∧
        (g.height = 0 → D.width? = src.width?)) ∧
    (0 < src.height →
      ∃ D, (array2d.ofCopy cvt src : Option (array2d T)) = some D ∧
        D.cellsize = src.cellsize ∧ D.xllcorner = src.xllcorner ∧
        D.yllcorner = src.yllcorner ∧ D.data_cells = src.data_cells ∧
        D.no_data = cvt src.no_data ∧ D.height = src.height ∧
        D.width? = src.width?) := by
  refine ⟨?_, fun h => array2d.copyprops_some cvt g src h, fun h => ?_⟩
  · intro h0
    unfold array2d.copyprops
    rw [array2d.width?_eq_none h0]
    rfl
  · obtain ⟨D, hD, h1, h2, h3, h4, h5, h6, h7⟩ :=
      array2d.copyprops_some cvt (array2d.mkDefault T) src h
    exact ⟨D, hD, h1, h2, h3, h4, h5, h6, h7 rfl⟩

/-- C2 witness: the copy constructor from the 5×2 grid succeeds and copies
the source's width, height and `cellsize`. -/
theorem copyprops_spec_witness :
    (0 : Nat) < gB.height ∧
      ∃ D, (array2d.ofCopy id gB : Option (array2d Int)) = some D ∧
        D.cellsize = gB.cellsize ∧ D.height = gB.height ∧
        D.width? = gB.width? := by
  have h := copyprops_spec id (array2d.mkDefault Int) gB
  obtain ⟨D, hD, h1, _, _, _, _, h6, h7⟩ := h.2.2 (by decide)
  exact ⟨by decide, D, hD, h1, h6, h7⟩

namespace array2d

/-- Helper: reading an `init`-overwritten row below the write bound yields the
written value. -/
theorem get?_row_init {T : Type} (v : T) (w x : Nat) (row : List T)
    (hlen : row.length = w) (hx : x < w) :
    (List.replicate (min w row.length) v ++ row.drop w).get? x = some v := by
  rw [hlen, Nat.min_self, List.drop_eq_nil_of_le (le_of_eq hlen), List.append_nil]
  simp [List.get?_eq_getElem?, List.getElem?_replicate, hx]

end array2d

/-- C5: for every rectangular grid and every value `v`, after `init(v)` every
coordinate with `in_grid(x, y)` true reads back `v` through the cell
accessor. -/
theorem init_spec {T : Type} (g : array2d T) (v : T) (x y : Int)
    (hr : g.rect) (hin : g.in_grid x y = true) :
    (g.init v).get? x y = some v := by
  simp only [array2d.in_grid, Bool.and_eq_true, decide_eq_true_eq] at hin
  obtain ⟨⟨⟨hx0, hy0⟩, hxw⟩, hyh⟩ := hin
  have hyl : y.toNat < g.data.length := by
    have h2 : g.height = g.data.length := rfl
    omega
  have hxl : x.toNat < g.widthD := by omega
  unfold array2d.get? array2d.init
  rw [if_pos ⟨hx0, hy0⟩]
  simp only
  rw [List.get?_map, List.get?_eq_getElem?, List.getElem?_eq_getElem hyl]
  simp only [Option.map_some', Option.some_bind]
  exact array2d.get?_row_init v g.widthD x.toNat _
    (hr _ (List.getElem_mem hyl)) hxl

/-- C5 witness: on the concrete 3×2 grid, `init(7)` makes cell (1, 1) read 7. -/
theorem init_spec_witness :
    gA.rect ∧ gA.in_grid 1 1 = true ∧ (gA.init 7).get? 1 1 = some 7 :=
  ⟨by unfold array2d.rect; decide, by decide,
   init_spec gA 7 1 1 (by unfold array2d.rect; decide) (by decide)⟩

/-- C3 counterexample: on the 5×5 grid, `interior_grid` holds for 9 of the 25
in-grid coordinates (those with `x, y ∈ {1,2,3}`), not for 16 as the claim
states — the claim swaps the interior and edge counts. -/
theorem interior_count_not_sixteen :
    ¬ coords5.countP (fun p => g5.interior_grid p.1 p.2) = 16 := by decide

/-- C3 (amended): on a 5×5 grid, `interior_grid(x, y)` holds exactly for
`x, y ∈ {1,2,3}` — 9 coordinates out of 25 — and `edge_grid` holds for the
remaining 16 boundary coordinates; on every grid, each in-grid coordinate
satisfies exactly one of `interior_grid` and `edge_grid`. -/
theorem interior_edge_partition :
    (∀ x y : Int, g5.interior_grid x y = true ↔
      ((1 ≤ x ∧ x ≤ 3) ∧ (1 ≤ y ∧ y ≤ 3))) ∧
    coords5.countP (fun p => g5.interior_grid p.1 p.2) = 9 ∧
    coords5.countP (fun p => g5.edge_grid p.1 p.2) = 16 ∧
    coords5.countP (fun p => g5.in_grid p.1 p.2) = 25 ∧
    (∀ (T : Type) (g : array2d T) (x y : Int), g.in_grid x y = true →
      (g.interior_grid x y = true ↔ ¬ g.edge_grid x y = true)) := by
  refine ⟨?_, by decide, by decide, by decide, ?_⟩
  · intro x y
    have hw : g5.widthD = 5 := by decide
    have hh : g5.height = 5 := by decide
    simp only [array2d.interior_grid, hw, hh, Bool.and_eq_true,
      decide_eq_true_eq]
    omega
  · intro T g x y hin
    simp only [array2d.in_grid, Bool.and_eq_true, decide_eq_true_eq] at hin
    simp only [array2d.interior_grid, array2d.edge_grid, Bool.and_eq_true,
      Bool.or_eq_true, decide_eq_true_eq, beq_iff_eq]
    omega

/-- C3 witness: the corner (0, 0) of the 5×5 grid is in-grid and lies on the
edge, not in the interior. -/
theorem interior_edge_partition_witness :
    g5.in_grid 0 0 = true ∧
      (g5.interior_grid 0 0 = true ↔ ¬ g5.edge_grid 0 0 = true) :=
  ⟨by decide, interior_edge_partition.2.2.2.2 Int g5 0 0 (by decide)⟩

namespace array2d

/-- Helper: `withMeta` does not change the storage, so `get?` is unaffected. -/
theorem get?_withMeta (g : array2d T) (cs xl yl dc : Int) (nd : T)
    (x y : Int) : (g.withMeta cs xl yl dc nd).get? x y = g.get? x y := rfl

/-- Helper: `withMeta` leaves `width?` unchanged. -/
theorem width?_withMeta (g : array2d T) (cs xl yl dc : Int) (nd : T) :
    (g.withMeta cs xl yl dc nd).width? = g.width? := rfl

/-- Helper: `withMeta` leaves `height` unchanged. -/
theorem height_withMeta (g : array2d T) (cs xl yl dc : Int) (nd : T) :
    (g.withMeta cs xl yl dc nd).height = g.height := rfl

/-- Helper: the cell-comparison loop ignores the metadata fields. -/
theorem beqCells_withMeta [DecidableEq T] (A B : array2d T)
    (cs xl yl dc : Int) (nd : T) (cs' xl' yl' dc' : Int) (nd' : T) :
    ∀ l, beqCells (A.withMeta cs xl yl dc nd) (B.withMeta cs' xl' yl' dc' nd') l =
      beqCells A B l := by
  intro l
  induction l with
  | nil => rfl
  | cons p rest ih =>
    unfold beqCells
    rw [get?_withMeta, get?_withMeta, ih]

/-- Helper: every in-bounds cell read on a rectangular grid is defined. -/
theorem get?_isSome_of_rect {g : array2d T} (hr : g.rect) {x y : Int}
    (hx0 : 0 ≤ x) (hy0 : 0 ≤ y) (hx : x < (g.widthD : Int))
    (hy : y < (g.height : Int)) : (g.get? x y).isSome := by
  unfold get?
  rw [if_pos ⟨hx0, hy0⟩]
  have hyl : y.toNat < g.data.length := by
    have h2 : g.height = g.data.length := rfl
    omega
  rw [List.get?_eq_getElem?, List.getElem?_eq_getElem hyl, Option.some_bind]
  have hrow := hr _ (List.getElem_mem hyl)
  have hxl : x.toNat < (g.data[y.toNat]).length := by rw [hrow]; omega
  rw [List.get?_eq_getElem?, List.getElem?_eq_getElem hxl]
  rfl

/-- Helper: when every visited cell read is defined on both grids, the
comparison loop is defined and reports whether all visited pairs agree. -/
theorem beqCells_defined [DecidableEq T] (g other : array2d T)
    (l : List (Int × Int))
    (hdef : ∀ p ∈ l, (g.get? p.1 p.2).isSome ∧ (other.get? p.1 p.2).isSome) :
    beqCells g other l =
      some (l.all fun p => g.get? p.1 p.2 == other.get? p.1 p.2) := by
  induction l with
  | nil => rfl
  | cons p rest ih =>
    obtain ⟨ha, hb⟩ := hdef p (List.mem_cons_self p rest)
    obtain ⟨a, ha'⟩ := Option.isSome_iff_exists.mp ha
    obtain ⟨b, hb'⟩ := Option.isSome_iff_exists.mp hb
    have ihr := ih (fun q hq => hdef q (List.mem_cons_of_mem p hq))
    by_cases hab : a = b
    · subst hab
      simp [beqCells, ha', hb', ihr]
    · simp [beqCells, ha', hb', hab]

/-- Helper: membership in the loop-order coordinate list visited by
`operator==`. -/
theorem mem_coordList {w h : Nat} {p : Int × Int} :
    (p ∈ (List.range w).flatMap fun x =>
      (List.range h).map fun y => (Int.ofNat x, Int.ofNat y)) ↔
    ∃ x < w, ∃ y < h, p = ((x : Int), (y : Int)) := by
  rw [List.mem_flatMap]
  constructor
  · rintro ⟨x, hx, hp⟩
    rw [List.mem_map] at hp
    obtain ⟨y, hy, rfl⟩ := hp
    exact ⟨x, List.mem_range.mp hx, y, List.mem_range.mp hy, rfl⟩
  · rintro ⟨x, hx, y, hy, rfl⟩
    exact ⟨x, List.mem_range.mpr hx,
      List.mem_map.mpr ⟨y, List.mem_range.mpr hy, rfl⟩⟩

end array2d

/-- C4 counterexample: comparing two freshly default-constructed grids — equal
(zero) dimensions and no cells, so the claim asserts the result is true — is
undefined: `operator==` unconditionally calls `width()` on both operands, and
on a row-less grid that reads `data[0].size()` out of range. -/
theorem beq_undefined_on_fresh :
    ¬ (array2d.mkDefault Int).beq (array2d.mkDefault Int) = some true := by
  decide

/-- C4 (amended): comparing a grid with no rows is undefined (the
unconditional `width()` call reads row 0 out of range, e.g. on a freshly
constructed grid).  When both operands have rows, `operator==` returns false
on a `width()` or `height()` mismatch without reading any cell, and on
rectangular operands it returns true iff the dimensions match and every
corresponding pair of cells is equal; the five metadata fields never
influence the result. -/
theorem beq_spec {T : Type} [DecidableEq T] (A B : array2d T)
    (hA : 0 < A.height) (hB : 0 < B.height) :
    (A.rect → B.rect →
      (A.beq B = some true ↔
        (A.widthD = B.widthD ∧ A.height = B.height ∧
          ∀ x < A.widthD, ∀ y < A.height,
            A.get? (x : Int) (y : Int) = B.get? (x : Int) (y : Int)))) ∧
    (A.widthD ≠ B.widthD ∨ A.height ≠ B.height → A.beq B = some false) ∧
    (∀ (A' B' : array2d T), A'.height = 0 → A'.beq B' = none) ∧
    (∀ (A' B' : array2d T) (cs xl yl dc : Int) (nd : T)
        (cs' xl' yl' dc' : Int) (nd' : T),
      (A'.withMeta cs xl yl dc nd).beq (B'.withMeta cs' xl' yl' dc' nd') =
        A'.beq B') := by
  have hwA := array2d.width?_eq_some_widthD hA
  have hwB := array2d.width?_eq_some_widthD hB
  refine ⟨?_, ?_, ?_, ?_⟩
  · intro hrA hrB
    unfold array2d.beq
    rw [hwA, hwB]
    simp only [Option.some_bind]
    split
    · next hne =>
      constructor
      · intro h
        simp at h
      · rintro ⟨h1, h2, _⟩
        rcases hne with hne | hne
        · exact absurd h1 hne
        · exact absurd h2 hne
    · next hne =>
      push_neg at hne
      obtain ⟨h1, h2⟩ := hne
      have hdef : ∀ p ∈ ((List.range A.widthD).flatMap fun x =>
          (List.range A.height).map fun y => (Int.ofNat x, Int.ofNat y)),
          (A.get? p.1 p.2).isSome = true ∧ (B.get? p.1 p.2).isSome = true := by
        intro p hp
        obtain ⟨x, hx, y, hy, rfl⟩ := array2d.mem_coordList.mp hp
        refine ⟨array2d.get?_isSome_of_rect hrA (by omega) (by omega)
            (by omega) (by omega),
          array2d.get?_isSome_of_rect hrB (by omega) (by omega)
            (by omega) (by omega)⟩
      rw [array2d.beqCells_defined A B _ hdef]
      simp only [Option.some.injEq, List.all_eq_true]
      constructor
      · intro h
        refine ⟨h1, h2, fun x hx y hy => ?_⟩
        have := h ((x : Int), (y : Int))
          (array2d.mem_coordList.mpr ⟨x, hx, y, hy, rfl⟩)
        simpa using this
      · rintro ⟨_, _, h⟩ p hp
        obtain ⟨x, hx, y, hy, rfl⟩ := array2d.mem_coordList.mp hp
        simpa using h x hx y hy
  · intro hd
    unfold array2d.beq
    rw [hwA, hwB]
    simp only [Option.some_bind]
    rw [if_pos hd]
  · intro A' B' h0
    unfold array2d.beq
    rw [array2d.width?_eq_none h0]
    rfl
  · intro A' B' cs xl yl dc nd cs' xl' yl' dc' nd'
    unfold array2d.beq
    simp only [array2d.width?_withMeta, array2d.height_withMeta,
      array2d.beqCells_withMeta]

/-- C4 witness: the 3×2 and 5×2 grids (both with rows) have different widths
and compare unequal. -/
theorem beq_spec_witness :
    (0 : Nat) < gA.height ∧ gA.widthD ≠ gB.widthD ∧
      gA.beq gB = some false :=
  ⟨by decide, by decide,
   (beq_spec gA gB (by decide) (by decide)).2.1 (Or.inl (by decide))⟩

/-- C9 counterexample: at the valid `int` dimensions 2147483647 × 2147483647
with the 8-byte `double` element type, the 64-bit product in `resize`'s
message overflows, so the printed megabyte figure differs from the exact
`floor(width * height * sizeof(element) / 1024 / 1024)`. -/
theorem resizeMsgMB_overflow :
    ¬ array2d.resizeMsgMB (sizeofC double_2d_elem) 2147483647 2147483647 =
        array2d.exactMsgMB (sizeofC double_2d_elem) 2147483647 2147483647 := by
  decide

/-- C9 (amended): the megabyte figure in `resize`'s diagnostic message is
computed modulo `2 ^ 64`; it equals the exact
`floor(width * height * sizeof(element) / 1024 / 1024)` whenever the byte
count `width * height * sizeof(element)` stays below `2 ^ 64` (with the
operands themselves below `2 ^ 64`, as they are for `int` dimensions). -/
theorem resizeMsgMB_exact (s w h : Nat) (hs : 0 < s) (hs64 : s < 2 ^ 64)
    (hw : w < 2 ^ 64) (hh : h < 2 ^ 64) (hp : w * h * s < 2 ^ 64) :
    array2d.resizeMsgMB s w h = array2d.exactMsgMB s w h := by
  unfold array2d.resizeMsgMB array2d.exactMsgMB
  have hwh : w * h < 2 ^ 64 :=
    lt_of_le_of_lt (Nat.le_mul_of_pos_right _ hs) hp
  rw [Nat.mod_eq_of_lt hw, Nat.mod_eq_of_lt hh, Nat.mod_eq_of_lt hs64,
    Nat.mod_eq_of_lt hwh, Nat.mod_eq_of_lt hp]

/-- C9 witness: for a 100×100 grid of 4-byte elements the reported figure is
the exact one. -/
theorem resizeMsgMB_exact_witness :
    (0 : Nat) < 4 ∧
      array2d.resizeMsgMB 4 100 100 = array2d.exactMsgMB 4 100 100 :=
  ⟨by decide, resizeMsgMB_exact 4 100 100 (by decide) (by decide) (by decide)
    (by decide) (by decide)⟩

/-- C10: `width()` reads row 0 of the storage: with `height() > 0` the row-0
lookup is in bounds and `width()` returns that row's length, while on a grid
with no rows (freshly default-constructed, or after `clear()`) the lookup is
out of range and the total embedding returns `none`. -/
theorem width_reads_row0 {T : Type} (g : array2d T) :
    (0 < g.height →
      ∃ row, g.data.head? = some row ∧ g.width? = some row.length) ∧
    (g.height = 0 → g.data.head? = none ∧ g.width? = none) ∧
    (array2d.mkDefault Int).width? = none ∧
    g.clear.width? = none := by
  refine ⟨?_, ?_, rfl, rfl⟩
  · intro h
    cases hd : g.data with
    | nil => rw [array2d.height, hd] at h; simp at h
    | cons r rs => exact ⟨r, by simp [hd], by simp [array2d.width?, hd]⟩
  · intro h
    cases hd : g.data with
    | nil => simp [array2d.width?, hd]
    | cons r rs => rw [array2d.height, hd] at h; simp at h

/-- C10 witness: the concrete 3×2 grid has rows, and `width()` returns row 0's
length. -/
theorem width_reads_row0_witness :
    (0 : Nat) < gA.height ∧
      ∃ row, gA.data.head? = some row ∧ gA.width? = some row.length :=
  ⟨by decide, (width_reads_row0 gA).1 (by decide)⟩
